import Mathlib

/-!
Verification of the save-loading and card-widget logic of the
Digimon-Card-App repository.

The development shallowly embeds three components:
  * `AppComponent` (src/src/app/app.component.ts): the save loader —
    `loadSave`, `startLoginOfflineDialog`, `startRetryDialog`,
    `loadBackup`, `createANewSave`.
  * `FullCardComponent` (src/unnamed/part_000): the card-count handlers
    `changeCardCount`, `increaseCardCount`, `decreaseCardCount`, and the
    sizing functions `setCardSize` and `rangeToRange`.
  * `UserComponent` (src/unnamed/part_001): the `userChange` subscription
    that fetches a remote save with first-result semantics.

The Save data model, `emptySave` and `DatabaseService.checkSaveValidity`
are not part of the provided sources; they are modelled from the spec and
marked as such in their doc comments.  Asynchronous rxjs streams are
modelled as the list of values they would emit; the `first()` operator
becomes `List.take 1`, so a subscriber attached through `first()`
processes at most the head of the emission list.
-/

namespace Digimon

/-- Modelled from the spec: the `ISave` record (`src/models` is not in the
sources).  A versioned record holding a collection (card id → owned
count), a set of decks and a user identity.  Per the spec (§3), a Save is
"a versioned record containing a collection (mapping of card identifier →
owned count), a set of decks, and user preferences. Identified by a user
id when authenticated, otherwise anonymous." -/
structure ISave where
  version : Nat
  collection : List (String × Int)
  decks : List (String × List (String × Int))
  uid : Option String
deriving Repr, DecidableEq

/-- User identity data held by the `AuthService` (service not in the
sources); only the fields the loader consumes are modelled. -/
structure UserData where
  uid : String
deriving Repr, DecidableEq

/-- Modelled from the spec: `emptySave` from `store/reducers/save.reducer`
(not in the sources): the freshly created empty save, whose `version`
field is the current schema version. -/
def emptySave : ISave :=
  { version := 1, collection := [], decks := [], uid := none }

/-- Modelled from the spec: `DatabaseService.checkSaveValidity` (service
not in the sources).  Per the spec (§4.2) it "accepts a raw, possibly
stale or externally-supplied (e.g., imported file) save object; returns a
normalized Save matching current schema, merging in user identity
fields", and it never throws.  Normalizing to the current schema sets the
version field to the current version; merging identity takes the user id
from the supplied user when present. -/
def checkSaveValidity (save : ISave) (user : Option UserData) : ISave :=
  { save with
    version := emptySave.version
    uid := match user with
      | some u => some u.uid
      | none => save.uid }

/-- An ngrx action dispatched into the store by the embedded components:
either `loadSave({save})` or `setSave({save})` from
`store/digimon.actions`. -/
inductive Action where
  | loadSaveAct (save : ISave)
  | setSaveAct (save : ISave)
deriving Repr, DecidableEq

/-- The save carried by a dispatched action. -/
def Action.save : Action → ISave
  | .loadSaveAct s => s
  | .setSaveAct s => s

/-- Whether the action is a `setSave` action. -/
def Action.isSetSave : Action → Bool
  | .loadSaveAct _ => false
  | .setSaveAct _ => true

/-- A PrimeNG toast message added through `MessageService.add`. -/
structure Message where
  severity : String
  summary : String
  detail : String
deriving Repr, DecidableEq

/-- The mutable state of `AppComponent` together with the observable
effects of a run: the dispatched-action log, the Save Store content, and
the toast messages.  Field defaults are the component's initializers
(`spinner = true`, `hide = true`, all dialogs closed). -/
structure AppState where
  spinner : Bool := true
  hide : Bool := true
  noSaveDialog : Bool := false
  retryDialog : Bool := false
  showChangelog : Bool := false
  localStorageSave : Option ISave := none
  storeSave : Option ISave := none
  dispatched : List Action := []
  messages : List Message := []
deriving Repr, DecidableEq

/-- The state of `AppComponent` right after field initialization. -/
def initState : AppState := {}

/-- `this.store.dispatch(a)`.  Modelled from the spec for the store side
(the reducer is not in the sources): per the spec (§2), the Save Loader
"dispatches [the save] into the Save Store", so the store content becomes
the save carried by the dispatched action; the action is also appended to
the dispatch log. -/
def dispatch (s : AppState) (a : Action) : AppState :=
  { s with dispatched := s.dispatched ++ [a], storeSave := some a.save }

/-- The environment the loader reads: authentication state and the parsed
content of local storage under the `Digimon-Card-Collector` key. -/
structure Env where
  isLoggedIn : Bool
  userData : Option UserData
  localStorage : Option ISave
deriving Repr, DecidableEq

/-- `AppComponent.checkForSave`: reads local storage into
`this.localStorageSave` (the `Digimon-Card-Collector` key; `null` when
absent). -/
def checkForSave (env : Env) (s : AppState) : AppState :=
  { s with localStorageSave := env.localStorage }

/-- `AppComponent.startRetryDialog`: clears the spinner and opens the
retry dialog. -/
def startRetryDialog (s : AppState) : AppState :=
  { s with spinner := false, retryDialog := true }

/-- `AppComponent.startLoginOfflineDialog`: when a local-storage save is
present it is validated and dispatched via `loadSave`; otherwise the
no-save dialog is opened. -/
def startLoginOfflineDialog (env : Env) (s : AppState) : AppState :=
  match s.localStorageSave with
  | some ls =>
    let v := checkSaveValidity ls env.userData
    let s := { s with localStorageSave := some v }
    let s := dispatch s (.loadSaveAct v)
    { s with spinner := false, hide := false }
  | none => { s with spinner := false, noSaveDialog := true }

/-- The subscriber body of the remote fetch in `AppComponent.loadSave`:
on `null` it starts the retry dialog; on a save it clears the spinner,
dispatches `loadSave({save})`, sets `showChangelog` when the fetched
version differs from the current one, and dispatches
`setSave({...save, version: emptySave.version})`. -/
def remoteHandler (s : AppState) (saveOrNull : Option ISave) : AppState :=
  match saveOrNull with
  | none => startRetryDialog s
  | some save =>
    let s := { s with spinner := false, hide := false }
    let s := dispatch s (.loadSaveAct save)
    let s := { s with showChangelog := save.version != emptySave.version }
    dispatch s (.setSaveAct { save with version := emptySave.version })

/-- `AppComponent.loadSave`: checks local storage, then branches on
authentication.  Offline it runs `startLoginOfflineDialog`; online it
subscribes to the remote fetch through `first()`, so only the head of the
emission list reaches `remoteHandler`. -/
def loadSave (env : Env) (emissions : List (Option ISave)) (s : AppState) :
    AppState :=
  let s := checkForSave env s
  if env.isLoggedIn then (emissions.take 1).foldl remoteHandler s
  else startLoginOfflineDialog env s

/-- `AppComponent.createANewSave`: closes the dialogs and dispatches
`setSave({save: emptySave})`. -/
def createANewSave (s : AppState) : AppState :=
  let s := { s with hide := false, noSaveDialog := false, retryDialog := false }
  dispatch s (.setSaveAct emptySave)

/-- The success toast of `loadBackup`. -/
def successMsg : Message :=
  { severity := "success", summary := "Save loaded!"
    detail := "The save was loaded successfully!" }

/-- The warning toast of `loadBackup`. -/
def warnMsg : Message :=
  { severity := "warn", summary := "Save Error!"
    detail := "The save was not loaded!" }

/-- The `try` block of `AppComponent.loadBackup`: `JSON.parse` of the file
contents is modelled by its outcome (`Except.error` when the contents are
not parseable as JSON), raised inside the block; on success the parsed
save is normalized via `checkSaveValidity(save, null)`, dispatched via
`loadSave`, the success toast is added and the dialogs cleared. -/
def loadBackupBody (parsed : Except String ISave) (s : AppState) :
    Except String AppState := do
  let raw ← parsed
  let save := checkSaveValidity raw none
  let s := dispatch s (.loadSaveAct save)
  let s := { s with messages := s.messages ++ [successMsg] }
  return { s with retryDialog := false, spinner := false, hide := false }

/-- `AppComponent.loadBackup` (the `onload` callback): runs the `try`
block and, on any thrown error, adds the warning toast and leaves
everything else unchanged.  The function is total: no exception escapes
the load sequence. -/
def loadBackup (parsed : Except String ISave) (s : AppState) : AppState :=
  match loadBackupBody parsed s with
  | .ok s => s
  | .error _ => { s with messages := s.messages ++ [warnMsg] }

/-- `UserComponent.userChange`, inner subscription: the remote
`getSave(uid)` stream is consumed through `first()`, and the subscriber
assigns the emitted save to `this.save`.  `emissions` is the list of
values the stream would emit; the result is the final value of
`this.save` starting from `current`. -/
def userChangeSave (emissions : List (Option ISave)) (current : Option ISave) :
    Option ISave :=
  (emissions.take 1).foldl (fun _ e => e) current

/-- The fields of `UserComponent` assigned by the `checkURL`
subscriber: `this.save`, `this.decks` and `this.collection`. -/
structure UserState where
  save : Option ISave
  decks : List (String × List (String × Int))
  collection : List (String × Int)
deriving Repr, DecidableEq

/-- The subscriber body of `UserComponent.checkURL`: assigns the emitted
save, and replaces decks and collection only when the save is non-null
(the `??` fallbacks keep the current values otherwise). -/
def checkURLHandler (s : UserState) (save : Option ISave) : UserState :=
  { save := save
    decks := match save with
      | some sv => sv.decks
      | none => s.decks
    collection := match save with
      | some sv => sv.collection
      | none => s.collection }

/-- `UserComponent.checkURL`: the route-params stream (each emission is
the id parameter, `none` when absent) is consumed through `first()`,
filtered on the presence of the id (without one only the URL is
rewritten), and switch-mapped into the remote `getSave(id)` stream
consumed through `first()`; the subscriber body runs on the resulting
emissions. -/
def checkURLSave (paramsEmissions : List (Option String))
    (getSave : String → List (Option ISave)) (s : UserState) : UserState :=
  ((((paramsEmissions.take 1).filterMap (fun p => p)).map
      (fun id => (getSave id).take 1)).flatten).foldl checkURLHandler s

/-- The mutable state of `FullCardComponent` relevant to the count
handlers: the current `count` field and the log of dispatched
`changeCardCount({id, count})` actions. -/
structure CardState where
  count : Int
  dispatchedCounts : List (String × Int)
deriving Repr, DecidableEq

/-- A user interaction with the full-card widget: typing a value into the
count input (`changeCardCount`), clicking the increase button
(`increaseCardCount`) or the decrease button (`decreaseCardCount`). -/
inductive CardEvent where
  | changeTo (value : Int) (id : String)
  | increase (id : String)
  | decrease (id : String)
deriving Repr, DecidableEq

/-- `FullCardComponent.changeCardCount`: returns without dispatching when
the entered value is at most 0, otherwise dispatches
`changeCardCount({id, count: value})`.  `this.count` is not touched. -/
def changeCardCount (s : CardState) (value : Int) (id : String) : CardState :=
  if value ≤ 0 then s
  else { s with dispatchedCounts := s.dispatchedCounts ++ [(id, value)] }

/-- `FullCardComponent.increaseCardCount`: pre-increments `this.count`
and dispatches the new value. -/
def increaseCardCount (s : CardState) (id : String) : CardState :=
  let count := s.count + 1
  { count := count, dispatchedCounts := s.dispatchedCounts ++ [(id, count)] }

/-- `FullCardComponent.decreaseCardCount`: returns when `this.count ≤ 0`,
otherwise pre-decrements `this.count` and dispatches the new value. -/
def decreaseCardCount (s : CardState) (id : String) : CardState :=
  if s.count ≤ 0 then s
  else
    let count := s.count - 1
    { count := count, dispatchedCounts := s.dispatchedCounts ++ [(id, count)] }

/-- One user interaction applied to the widget state. -/
def stepCard (s : CardState) (e : CardEvent) : CardState :=
  match e with
  | .changeTo value id => changeCardCount s value id
  | .increase id => increaseCardCount s id
  | .decrease id => decreaseCardCount s id

/-- A sequence of user interactions applied to the widget state. -/
def runCard (s : CardState) (es : List CardEvent) : CardState :=
  es.foldl stepCard s

/-- The CSS width set by `setCardSize`: a number of `vw` or `vmin`
units (the code builds the strings `"20vw"`, `"5vw"`, `x + "vmin"`). -/
inductive CardWidth where
  | vw (q : ℚ)
  | vmin (q : ℚ)
deriving DecidableEq

/-- `FullCardComponent.rangeToRange`: the range-remapping arrow function,
`((input - 5) * (30 - 20)) / (100 - 5) + 20` over numbers. -/
def rangeToRange (input : ℚ) : ℚ :=
  ((input - 5) * (30 - 20)) / (100 - 5) + 20

/-- The display-mode inputs consumed by `setCardSize`, in the priority
order the code checks them. -/
structure SizeConfig where
  biggerCards : Bool
  deckBuilder : Bool
  compact : Bool
deriving Repr, DecidableEq

/-- `FullCardComponent.setCardSize`: `biggerCards` forces `20vw`,
`deckBuilder` forces `5vw`, `compact` uses `rangeToRange(100)` vmin, and
otherwise the width is `rangeToRange(size)` vmin. -/
def setCardSize (cfg : SizeConfig) (size : ℚ) : CardWidth :=
  if cfg.biggerCards then .vw 20
  else if cfg.deckBuilder then .vw 5
  else if cfg.compact then .vmin (rangeToRange 100)
  else .vmin (rangeToRange size)

example : rangeToRange 100 = 30 := by norm_num [rangeToRange]

/-- The inductive invariant of the count handlers: the widget count is
non-negative and every dispatched `changeCardCount` carries a
non-negative count. -/
def countInv (s : CardState) : Prop :=
  0 ≤ s.count ∧ ∀ p ∈ s.dispatchedCounts, 0 ≤ p.2

lemma stepCard_countInv (s : CardState) (e : CardEvent) (h : countInv s) :
    countInv (stepCard s e) := by
  obtain ⟨hc, hd⟩ := h
  cases e with
  | changeTo value id =>
    by_cases hv : value ≤ 0
    · simpa [stepCard, changeCardCount, hv] using ⟨hc, hd⟩
    · refine ⟨by simpa [stepCard, changeCardCount, hv] using hc, ?_⟩
      intro p hp
      simp [stepCard, changeCardCount, hv] at hp
      rcases hp with hp | rfl
      · exact hd p hp
      · omega
  | increase id =>
    refine ⟨by simp [stepCard, increaseCardCount]; omega, ?_⟩
    intro p hp
    simp [stepCard, increaseCardCount] at hp
    rcases hp with hp | rfl
    · exact hd p hp
    · simp
      omega
  | decrease id =>
    by_cases hz : s.count ≤ 0
    · simpa [stepCard, decreaseCardCount, hz] using ⟨hc, hd⟩
    · refine ⟨by simp [stepCard, decreaseCardCount, hz]; omega, ?_⟩
      intro p hp
      simp [stepCard, decreaseCardCount, hz] at hp
      rcases hp with hp | rfl
      · exact hd p hp
      · simp
        omega

lemma runCard_countInv (s : CardState) (es : List CardEvent)
    (h : countInv s) : countInv (runCard s es) := by
  induction es generalizing s with
  | nil => exact h
  | cons e es ih => exact ih (stepCard s e) (stepCard_countInv s e h)

example :
    runCard ⟨0, []⟩ [.increase "a", .decrease "a", .decrease "a"] =
      ⟨0, [("a", 1), ("a", 0)]⟩ := by
  decide

example :
    (loadSave ⟨true, some ⟨"u"⟩, none⟩
        [some { emptySave with version := 0 }] initState).dispatched =
      [.loadSaveAct { emptySave with version := 0 }, .setSaveAct emptySave] := by
  decide

/-- C2: on initialization the save source is selected in priority order:
authenticated users get the remote save fetched and dispatched; otherwise
an existing local-cache save is validated and dispatched; otherwise the
no-save dialog is shown. -/
theorem C2_load_priority (env : Env) (emissions : List (Option ISave)) :
    (env.isLoggedIn = true → ∀ save rest, emissions = some save :: rest →
      (loadSave env emissions initState).dispatched =
        [.loadSaveAct save,
         .setSaveAct { save with version := emptySave.version }])
    ∧ (env.isLoggedIn = false → ∀ ls, env.localStorage = some ls →
      (loadSave env emissions initState).dispatched =
        [.loadSaveAct (checkSaveValidity ls env.userData)])
    ∧ (env.isLoggedIn = false → env.localStorage = none →
      (loadSave env emissions initState).noSaveDialog = true
      ∧ (loadSave env emissions initState).dispatched = []) := by
  obtain ⟨lg, ud, lst⟩ := env
  refine ⟨?_, ?_, ?_⟩
  · rintro h save rest rfl
    simp at h
    subst h
    simp [loadSave, checkForSave, remoteHandler, dispatch, initState]
  · rintro h ls rfl
    simp at h
    subst h
    simp [loadSave, checkForSave, startLoginOfflineDialog, dispatch, initState]
  · rintro h hnone
    simp at h
    subst h
    subst hnone
    simp [loadSave, checkForSave, startLoginOfflineDialog, initState]

/-- C2 witness: the three branches evaluated at concrete inputs. -/
theorem C2_load_priority_witness :
    ((loadSave ⟨true, some ⟨"u"⟩, none⟩ [some emptySave] initState).dispatched =
      [.loadSaveAct emptySave, .setSaveAct emptySave])
    ∧ ((loadSave ⟨false, none, some emptySave⟩ [] initState).dispatched =
      [.loadSaveAct (checkSaveValidity emptySave none)])
    ∧ (loadSave ⟨false, none, none⟩ [] initState).noSaveDialog = true := by
  refine ⟨?_, ?_, ?_⟩
  · have h := (C2_load_priority ⟨true, some ⟨"u"⟩, none⟩ [some emptySave]).1
      rfl emptySave [] rfl
    simpa using h
  · exact (C2_load_priority ⟨false, none, some emptySave⟩ []).2.1 rfl emptySave rfl
  · exact ((C2_load_priority ⟨false, none, none⟩ []).2.2 rfl rfl).1

/-- C3: importing a file whose contents are not parseable as JSON leaves
the dispatch log and the Save Store unchanged, adds exactly the warning
toast (severity warn), and returns normally — `loadBackup` is a total
function, so the failure never escapes the load sequence. -/
theorem C3_backup_parse_error (e : String) (s : AppState) :
    (loadBackup (.error e) s).dispatched = s.dispatched
    ∧ (loadBackup (.error e) s).storeSave = s.storeSave
    ∧ (loadBackup (.error e) s).messages = s.messages ++ [warnMsg]
    ∧ warnMsg.severity = "warn" := by
  refine ⟨rfl, rfl, rfl, rfl⟩

/-- C4: importing a save file that parses but carries an outdated version
dispatches (via the `loadSave` action) a save whose version equals the
current version and whose collection, decks and uid are those of the
imported save. -/
theorem C4_backup_outdated_version (raw : ISave) (s : AppState)
    (h : raw.version ≠ emptySave.version) :
    ∃ d, (loadBackup (.ok raw) s).dispatched = s.dispatched ++ [.loadSaveAct d]
      ∧ d.version = emptySave.version
      ∧ d.collection = raw.collection
      ∧ d.decks = raw.decks
      ∧ d.uid = raw.uid := by
  exact ⟨checkSaveValidity raw none, rfl, rfl, rfl, rfl, rfl⟩

/-- C4 witness: a version-0 imported save is dispatched at version 1 with
its fields preserved. -/
theorem C4_backup_outdated_version_witness :
    (0 : Nat) ≠ emptySave.version
    ∧ ∃ d, (loadBackup (.ok ⟨0, [("BT1-001", 2)], [], some "x"⟩)
          initState).dispatched =
        initState.dispatched ++ [.loadSaveAct d]
      ∧ d.version = emptySave.version
      ∧ d.collection = [("BT1-001", 2)]
      ∧ d.decks = []
      ∧ d.uid = some "x" :=
  ⟨by decide,
   C4_backup_outdated_version ⟨0, [("BT1-001", 2)], [], some "x"⟩ initState
     (by decide)⟩

/-- C5: with no authentication and no local save, the load sequence opens
the create-new-save prompt and dispatches nothing; choosing to create a
new save then dispatches the empty save into the store. -/
theorem C5_no_save_create_new (env : Env) (emissions : List (Option ISave))
    (h1 : env.isLoggedIn = false) (h2 : env.localStorage = none) :
    (loadSave env emissions initState).noSaveDialog = true
    ∧ (loadSave env emissions initState).dispatched = []
    ∧ (createANewSave (loadSave env emissions initState)).dispatched =
        [.setSaveAct emptySave]
    ∧ (createANewSave (loadSave env emissions initState)).storeSave =
        some emptySave := by
  obtain ⟨lg, ud, lst⟩ := env
  simp at h1 h2
  subst h1
  subst h2
  simp [loadSave, checkForSave, startLoginOfflineDialog, createANewSave,
    dispatch, initState, Action.save]

/-- C5 witness: the offline no-save path evaluated at a concrete
environment. -/
theorem C5_no_save_create_new_witness :
    (loadSave ⟨false, none, none⟩ [] initState).noSaveDialog = true
    ∧ (loadSave ⟨false, none, none⟩ [] initState).dispatched = []
    ∧ (createANewSave (loadSave ⟨false, none, none⟩ [] initState)).dispatched =
        [.setSaveAct emptySave]
    ∧ (createANewSave (loadSave ⟨false, none, none⟩ [] initState)).storeSave =
        some emptySave :=
  C5_no_save_create_new ⟨false, none, none⟩ [] rfl rfl

/-- C6: when the authenticated remote fetch fails (emits null), the retry
dialog is opened and the spinner cleared, and the Save Store is untouched:
nothing is dispatched. -/
theorem C6_remote_failure_retry (env : Env) (rest : List (Option ISave))
    (h : env.isLoggedIn = true) :
    (loadSave env (none :: rest) initState).retryDialog = true
    ∧ (loadSave env (none :: rest) initState).spinner = false
    ∧ (loadSave env (none :: rest) initState).dispatched = []
    ∧ (loadSave env (none :: rest) initState).storeSave = none := by
  obtain ⟨lg, ud, lst⟩ := env
  simp at h
  subst h
  simp [loadSave, checkForSave, remoteHandler, startRetryDialog, initState]

/-- C6 witness: the failure path evaluated at a concrete environment. -/
theorem C6_remote_failure_retry_witness :
    (loadSave ⟨true, some ⟨"u"⟩, none⟩ [none] initState).retryDialog = true
    ∧ (loadSave ⟨true, some ⟨"u"⟩, none⟩ [none] initState).spinner = false
    ∧ (loadSave ⟨true, some ⟨"u"⟩, none⟩ [none] initState).dispatched = []
    ∧ (loadSave ⟨true, some ⟨"u"⟩, none⟩ [none] initState).storeSave = none :=
  C6_remote_failure_retry ⟨true, some ⟨"u"⟩, none⟩ [] rfl

/-- C7: first-result semantics of the remote fetches.  The app load
sequence depends only on the first emission of the remote stream (later
emissions never reach the subscriber); the user-profile `userChange`
subscriber assigns exactly the first emitted save, regardless of later
emissions, and with no emission it never runs; and the user-profile URL
handler `checkURL` depends only on the first params emission and the
first emission of the fetched save stream: its subscriber runs exactly
once with the first fetched result when an id is present, and never when
the id is absent. -/
theorem C7_first_result_semantics :
    (∀ env s emissions, loadSave env emissions s =
      loadSave env (emissions.take 1) s)
    ∧ (∀ env s e rest rest2,
        loadSave env (e :: rest) s = loadSave env (e :: rest2) s)
    ∧ (∀ e rest c, userChangeSave (e :: rest) c = e)
    ∧ (∀ c, userChangeSave [] c = c)
    ∧ (∀ ps g s, checkURLSave ps g s =
        checkURLSave (ps.take 1) (fun id => (g id).take 1) s)
    ∧ (∀ p rest rest2 g s,
        checkURLSave (p :: rest) g s = checkURLSave (p :: rest2) g s)
    ∧ (∀ id e rest s,
        checkURLSave [some id] (fun _ => e :: rest) s = checkURLHandler s e)
    ∧ (∀ rest g s, checkURLSave (none :: rest) g s = s) := by
  refine ⟨?_, ?_, ?_, ?_, ?_, ?_, ?_, ?_⟩
  · intro env s emissions
    simp [loadSave, List.take_take]
  · intro env s e rest rest2
    simp [loadSave]
  · intro e rest c
    simp [userChangeSave]
  · intro c
    simp [userChangeSave]
  · intro ps g s
    simp [checkURLSave, List.take_take]
  · intro p rest rest2 g s
    simp [checkURLSave]
  · intro id e rest s
    simp [checkURLSave]
  · intro rest g s
    simp [checkURLSave]

/-- C1 counterexample: on the authenticated remote path, the first action
dispatched into the store (`loadSave({save})` with the raw fetched save)
carries the fetched version unchanged, so fetching a version-0 save
dispatches a save below the current version. -/
theorem C1_counterexample :
    ¬ ∀ a ∈ (loadSave ⟨true, some ⟨"u"⟩, none⟩
        [some { emptySave with version := 0 }] initState).dispatched,
      a.save.version = emptySave.version := by
  decide

/-- C1 amended: the Save Store holds a current-version save whenever a
load handler has completed, every `setSave` dispatch carries the current
version, and every save dispatched by the offline local-cache load, the
file import, and new-save creation carries the current version; only the
remote path's initial `loadSave` dispatch carries the fetched save's
original version, and it is immediately followed by a `setSave` at the
current version. -/
theorem C1_store_version (env : Env) (emissions : List (Option ISave)) :
    (∀ sv, (loadSave env emissions initState).storeSave = some sv →
      sv.version = emptySave.version)
    ∧ (∀ a ∈ (loadSave env emissions initState).dispatched,
        a.isSetSave = true → a.save.version = emptySave.version)
    ∧ (env.isLoggedIn = false →
        ∀ a ∈ (loadSave env emissions initState).dispatched,
          a.save.version = emptySave.version)
    ∧ (∀ parsed s,
        ∀ a ∈ (loadBackup parsed s).dispatched.drop s.dispatched.length,
          a.save.version = emptySave.version)
    ∧ (∀ s : AppState,
        ∀ a ∈ (createANewSave s).dispatched.drop s.dispatched.length,
          a.save.version = emptySave.version) := by
  obtain ⟨lg, ud, lst⟩ := env
  refine ⟨?_, ?_, ?_, ?_, ?_⟩
  · intro sv hsv
    cases lg
    · cases lst <;>
        simp [loadSave, checkForSave, startLoginOfflineDialog, dispatch,
          checkSaveValidity, initState, Action.save] at hsv <;>
        simp [← hsv]
    · rcases emissions with _ | ⟨e, rest⟩
      · simp [loadSave, checkForSave, initState] at hsv
      · rcases e with _ | sv0 <;>
          simp [loadSave, checkForSave, remoteHandler, startRetryDialog,
            dispatch, initState, Action.save] at hsv
        simp [← hsv]
  · intro a ha hset
    cases lg
    · cases lst <;>
        simp [loadSave, checkForSave, startLoginOfflineDialog, dispatch,
          initState] at ha
      subst ha
      simp [Action.isSetSave] at hset
    · rcases emissions with _ | ⟨e, rest⟩
      · simp [loadSave, checkForSave, initState] at ha
      · rcases e with _ | sv0 <;>
          simp [loadSave, checkForSave, remoteHandler, startRetryDialog,
            dispatch, initState] at ha
        rcases ha with rfl | rfl
        · simp [Action.isSetSave] at hset
        · simp [Action.save]
  · intro h a ha
    simp at h
    subst h
    cases lst <;>
      simp [loadSave, checkForSave, startLoginOfflineDialog, dispatch,
        initState] at ha
    subst ha
    simp [Action.save, checkSaveValidity]
  · intro parsed s a ha
    rcases parsed with err | raw
    · simp [loadBackup, loadBackupBody] at ha
    · simp [loadBackup, loadBackupBody, dispatch, List.drop_left] at ha
      subst ha
      simp [Action.save, checkSaveValidity]
  · intro s a ha
    simp [createANewSave, dispatch, List.drop_left] at ha
    subst ha
    simp [Action.save]

/-- C1 witness: after an offline local-cache load of a stale save, the
store holds a save at the current version. -/
theorem C1_store_version_witness :
    ∀ sv, (loadSave ⟨false, none, some { emptySave with version := 0 }⟩ []
        initState).storeSave = some sv → sv.version = emptySave.version :=
  (C1_store_version ⟨false, none, some { emptySave with version := 0 }⟩ []).1

/-- C8: on an authenticated remote load that succeeds, the save stored via
`setSave` is the fetched save with only its version replaced by the
current version (collection, decks and uid are untouched), and the
changelog dialog shows exactly when the fetched version differed from the
current one. -/
theorem C8_remote_success_frame (u : UserData) (lst : Option ISave)
    (save : ISave) (rest : List (Option ISave)) :
    (loadSave ⟨true, some u, lst⟩ (some save :: rest) initState).storeSave =
      some { save with version := emptySave.version }
    ∧ (loadSave ⟨true, some u, lst⟩ (some save :: rest)
        initState).dispatched =
      [.loadSaveAct save,
       .setSaveAct { save with version := emptySave.version }]
    ∧ ISave.collection { save with version := emptySave.version } =
        save.collection
    ∧ ISave.decks { save with version := emptySave.version } = save.decks
    ∧ ISave.uid { save with version := emptySave.version } = save.uid
    ∧ (loadSave ⟨true, some u, lst⟩ (some save :: rest)
        initState).showChangelog = (save.version != emptySave.version) := by
  refine ⟨?_, ?_, rfl, rfl, rfl, ?_⟩ <;>
    simp [loadSave, checkForSave, remoteHandler, dispatch, initState,
      Action.save]


/-- C9: starting the full-card widget from a non-negative count, every
interaction sequence dispatches only non-negative counts; moreover
`decreaseCardCount` is a no-op at count ≤ 0 and otherwise dispatches
count − 1, `increaseCardCount` dispatches count + 1, and the direct
input handler dispatches only values strictly greater than 0. -/
theorem C9_nonnegative_counts (c0 : Int) (es : List CardEvent)
    (h : 0 ≤ c0) :
    (∀ p ∈ (runCard ⟨c0, []⟩ es).dispatchedCounts, 0 ≤ p.2)
    ∧ (∀ s : CardState, ∀ id, s.count ≤ 0 → decreaseCardCount s id = s)
    ∧ (∀ s : CardState, ∀ id, 0 < s.count →
        (decreaseCardCount s id).dispatchedCounts =
          s.dispatchedCounts ++ [(id, s.count - 1)])
    ∧ (∀ s : CardState, ∀ id,
        (increaseCardCount s id).dispatchedCounts =
          s.dispatchedCounts ++ [(id, s.count + 1)])
    ∧ (∀ s : CardState, ∀ v : Int, ∀ id, v ≤ 0 → changeCardCount s v id = s)
    ∧ (∀ s : CardState, ∀ v : Int, ∀ id, 0 < v →
        (changeCardCount s v id).dispatchedCounts =
          s.dispatchedCounts ++ [(id, v)]) := by
  refine ⟨?_, ?_, ?_, ?_, ?_, ?_⟩
  · exact (runCard_countInv ⟨c0, []⟩ es ⟨h, by simp⟩).2
  · intro s id hz
    simp [decreaseCardCount, hz]
  · intro s id hz
    simp [decreaseCardCount, not_le.mpr hz]
  · intro s id
    simp [increaseCardCount]
  · intro s v id hv
    simp [changeCardCount, hv]
  · intro s v id hv
    simp [changeCardCount, not_le.mpr hv]

/-- C9 witness: a concrete interaction sequence from count 1 dispatches
only non-negative counts, and a decrease at count 0 is a no-op. -/
theorem C9_nonnegative_counts_witness :
    (0 : Int) ≤ 1
    ∧ (∀ p ∈ (runCard ⟨1, []⟩
        [.decrease "a", .decrease "a", .increase "a"]).dispatchedCounts,
        0 ≤ p.2)
    ∧ decreaseCardCount ⟨0, []⟩ "a" = ⟨0, []⟩ :=
  ⟨by decide,
   (C9_nonnegative_counts 1 [.decrease "a", .decrease "a", .increase "a"]
      (by decide)).1,
   (C9_nonnegative_counts 1 [] (by decide)).2.1 ⟨0, []⟩ "a" (by decide)⟩

/-- C10: `rangeToRange` is the linear map x ↦ ((x − 5) · 10) / 95 + 20,
strictly monotone, sending 5 to 20 and 100 to 30, with inputs in [5, 100]
yielding outputs in [20, 30]; consequently `setCardSize` in compact mode
sets the card width to 30 vmin for every size. -/
theorem C10_rangeToRange_linear :
    (∀ x, rangeToRange x = ((x - 5) * 10) / 95 + 20)
    ∧ StrictMono rangeToRange
    ∧ rangeToRange 5 = 20
    ∧ rangeToRange 100 = 30
    ∧ (∀ x, 5 ≤ x → x ≤ 100 → 20 ≤ rangeToRange x ∧ rangeToRange x ≤ 30)
    ∧ (∀ size, setCardSize ⟨false, false, true⟩ size = .vmin 30) := by
  refine ⟨?_, ?_, ?_, ?_, ?_, ?_⟩
  · intro x
    norm_num [rangeToRange]
  · intro a b hab
    unfold rangeToRange
    have h10 : (a - 5) * (30 - 20) < (b - 5) * (30 - 20) := by nlinarith
    have hdiv : (a - 5) * (30 - 20) / ((100 : ℚ) - 5) <
        (b - 5) * (30 - 20) / ((100 : ℚ) - 5) :=
      div_lt_div_of_pos_right h10 (by norm_num)
    exact add_lt_add_right hdiv 20
  · norm_num [rangeToRange]
  · norm_num [rangeToRange]
  · intro x hx5 hx100
    unfold rangeToRange
    constructor
    · have hnn : (0 : ℚ) ≤ (x - 5) * (30 - 20) / (100 - 5) :=
        div_nonneg (by nlinarith) (by norm_num)
      linarith
    · have hub : (x - 5) * (30 - 20) / ((100 : ℚ) - 5) ≤ 10 := by
        rw [div_le_iff₀ (by norm_num)]
        nlinarith
      linarith
  · intro size
    have h30 : rangeToRange 100 = 30 := by norm_num [rangeToRange]
    simp [setCardSize, h30]

/-- C10 witness: the bounds evaluated at the midpoint input 50 and the
compact width at a concrete size. -/
theorem C10_rangeToRange_linear_witness :
    ((5 : ℚ) ≤ 50 ∧ (50 : ℚ) ≤ 100
      ∧ 20 ≤ rangeToRange 50 ∧ rangeToRange 50 ≤ 30)
    ∧ setCardSize ⟨false, false, true⟩ 7 = .vmin 30 :=
  ⟨⟨by norm_num, by norm_num,
    C10_rangeToRange_linear.2.2.2.2.1 50 (by norm_num) (by norm_num)⟩,
   C10_rangeToRange_linear.2.2.2.2.2 7⟩

end Digimon
